import Mathlib

/-!
Shallow embedding of `app/tax_calculator.py` (class `TaxCalculator`): the
cumulative progressive withholding tax calculator.

Modelling conventions:
* Python `Decimal` values are embedded as `ℚ`.  Every `Decimal` operation the
  source performs on money amounts (addition, subtraction, multiplication,
  comparison) is exact at the configured 20-digit context precision for the
  magnitudes involved, so `ℚ` arithmetic coincides with it;
  `quantize(Decimal('0.01'), ROUND_HALF_UP)`, the default
  `ROUND_HALF_EVEN` quantize, `round(x, n)` and `f"{x:.2f}"` formatting are
  embedded as the explicit rounding functions below.
* `Decimal` division by zero raises; the embedding makes the per-record step
  return `Except.error ()` at the point of the `effective_tax_rate` division.
* The `"YYYY-MM"` month strings are embedded as a year/month pair of naturals;
  for the zero-padded strings produced upstream, the source's string ordering,
  string equality and `map(int, key.split('-'))` parsing agree with the
  componentwise view.
* Python's `sorted` (a stable sort on the key `(year_month, payment_time)`) is
  embedded as `List.insertionSort` with the lexicographic key order, which is
  stable for a total preorder and therefore produces the same list.
-/

/-- Round a rational to an integer, ties to even (`decimal.ROUND_HALF_EVEN`,
the default rounding of `quantize` and of `round`/format on `Decimal`). -/
def roundHEint (q : ℚ) : ℤ :=
  let n := ⌊q⌋
  let f := q - (n : ℚ)
  if f < 1/2 then n
  else if 1/2 < f then n + 1
  else if n % 2 = 0 then n else n + 1

/-- Round a rational to an integer, ties away from zero
(`decimal.ROUND_HALF_UP`). -/
def roundHUint (q : ℚ) : ℤ :=
  if 0 ≤ q then ⌊q + 1/2⌋ else -⌊1/2 - q⌋

/-- `x.quantize(Decimal('0.01'), rounding=ROUND_HALF_UP)`. -/
def round2hu (q : ℚ) : ℚ := (roundHUint (q * 100) : ℚ) / 100

/-- `x.quantize(Decimal('0.01'))` / `round(x, 2)` (ties to even). -/
def round2he (q : ℚ) : ℚ := (roundHEint (q * 100) : ℚ) / 100

/-- `round(x, 4)` (ties to even). -/
def round4he (q : ℚ) : ℚ := (roundHEint (q * 10000) : ℚ) / 10000

/-- `f"{x:.2f}"` on a `Decimal`: round ties-to-even to 2 decimals and print
with exactly two fractional digits. -/
def fmt2 (q : ℚ) : String :=
  let n := roundHEint (q * 100)
  let sgn := if n < 0 then "-" else ""
  let a := n.natAbs
  let frac := a % 100
  sgn ++ toString (a / 100) ++ "." ++
    (if frac < 10 then "0" ++ toString frac else toString frac)

/-- `f"{x:.0f}"` on a `Decimal`. -/
def fmt0 (q : ℚ) : String := toString (roundHEint q)

/-- A `"YYYY-MM"` month key, embedded componentwise. -/
structure YM where
  year : Nat
  month : Nat
deriving DecidableEq, Repr

/-- Render a month key back to `"YYYY-MM"` form (months are zero-padded by
the upstream `DATE_FORMAT(..., '%Y-%m')`). -/
def fmtYM (ym : YM) : String :=
  toString ym.year ++ "-" ++
    (if ym.month < 10 then "0" ++ toString ym.month else toString ym.month)

/-- One billing record handed to `calculate_tax` (the dict built by
`get_records` / `_get_records_for_people` / `_get_mock_records`).
`payment_time` is an abstract timestamp used only as the sort tiebreaker;
`bill_amount` is `none` for a SQL NULL amount. -/
structure BillingRecord where
  payment_time : Nat
  year_month : YM
  bill_amount : Option ℚ
  batch_no : String
  realname : String
  worker_id : Nat
  credential_num : String
deriving DecidableEq, Repr

/-- The sort key of line 343: `(x['year_month'], x.get('payment_time', ...))`,
compared lexicographically as Python compares tuples. -/
def keyLE (a b : BillingRecord) : Prop :=
  a.year_month.year < b.year_month.year ∨
    (a.year_month.year = b.year_month.year ∧
      (a.year_month.month < b.year_month.month ∨
        (a.year_month.month = b.year_month.month ∧ a.payment_time ≤ b.payment_time)))

instance : DecidableRel keyLE := fun a b => by unfold keyLE; infer_instance

instance : IsTotal BillingRecord keyLE :=
  ⟨fun a b => by simp only [keyLE]; omega⟩

instance : IsTrans BillingRecord keyLE :=
  ⟨fun a b c hab hbc => by simp only [keyLE] at *; omega⟩

/-- `sorted(records, key=lambda x: (x['year_month'], x.get('payment_time', ...)))`
of line 343: Python's sort is stable, hence equal to insertion sort on `keyLE`. -/
def sortRecords (records : List BillingRecord) : List BillingRecord :=
  List.insertionSort keyLE records

/-- A `(credential_num, realname, worker_id)` triple as returned by
`_get_people_from_batch`. -/
structure Person where
  credential_num : String
  realname : String
  worker_id : Nat
deriving DecidableEq, Repr

/-- One per-month accumulator (the dict values of `monthly_accumulators`). -/
structure MAccum where
  records : List BillingRecord
  total_amount : ℚ
  paid_tax : ℚ
  monthly_income : ℚ
  started : Bool
  reset_reason : String
deriving DecidableEq, Repr

/-- The freshly created accumulator of lines 352-355 / 376-379. -/
def freshAccum (reason : String) : MAccum :=
  { records := [], total_amount := 0, paid_tax := 0, monthly_income := 0,
    started := false, reset_reason := reason }

/-- The running per-person state of `calculate_tax` (lines 335-340). -/
structure RunState where
  accumulated_income : ℚ
  accumulated_tax : ℚ
  accumulated_months : Nat
  revenue_bills : ℚ
  last_income_month : Option YM
  monthly : List (YM × MAccum)
deriving DecidableEq, Repr

/-- Keyed lookup in `monthly_accumulators`. -/
def lookupM : List (YM × MAccum) → YM → Option MAccum
  | [], _ => none
  | (k, v) :: rest, key => if k = key then some v else lookupM rest key

/-- Keyed store into `monthly_accumulators` (replace if present, else append,
as a Python dict assignment behaves). -/
def setM : List (YM × MAccum) → YM → MAccum → List (YM × MAccum)
  | [], key, v => [(key, v)]
  | (k, w) :: rest, key, v =>
    if k = key then (k, v) :: rest else (k, w) :: setM rest key v

/-- The gap/reset detection of lines 357-368: returns the `reset_needed` flag
and the `reset_reason` text. -/
def detectReset (last_income_month : Option YM) (month_key : YM) : Bool × String :=
  match last_income_month with
  | none => (false, "")
  | some last =>
    if month_key.year ≠ last.year then
      (true, "跨年重置 (" ++ fmtYM last ++ " → " ++ fmtYM month_key ++ ")")
    else if 1 < (month_key.month : ℤ) - (last.month : ℤ) then
      (true, "收入中断超过1个月 (" ++ fmtYM last ++ " → " ++ fmtYM month_key ++ ")")
    else (false, "")

/-- `get_income_type_name` (lines 552-554). -/
def get_income_type_name (income_type : ℤ) : String :=
  if income_type = 1 then "劳务报酬" else "工资薪金"

/-- `get_tax_rate_and_deduction` (lines 556-573): the seven-bracket
progressive rate table keyed on the accumulated taxable income. -/
def get_tax_rate_and_deduction (taxable_income : ℚ) : ℚ × ℚ :=
  let t := max 0 taxable_income
  if t ≤ 36000 then (0.03, 0.00)
  else if t ≤ 144000 then (0.10, 2520.00)
  else if t ≤ 300000 then (0.20, 16920.00)
  else if t ≤ 420000 then (0.25, 31920.00)
  else if t ≤ 660000 then (0.30, 52920.00)
  else if t ≤ 960000 then (0.35, 85920.00)
  else (0.45, 181920.00)

/-- The option bag of `calculate_tax` (`**kwargs`, lines 312-324), after the
entry clamps have been applied by `clampOpts`. -/
structure TaxOptions where
  worker_id : Nat
  income_type : ℤ
  realname : String
  accumulated_special_deduction : ℚ
  accumulated_additional_deduction : ℚ
  accumulated_other_deduction : ℚ
  accumulated_pension_deduction : ℚ
  accumulated_donation_deduction : ℚ
deriving DecidableEq, Repr

/-- The `max(Decimal('0.00'), ...)` clamps of lines 315-324. -/
def clampOpts (opts : TaxOptions) : TaxOptions :=
  { opts with
    accumulated_special_deduction := max 0 opts.accumulated_special_deduction,
    accumulated_additional_deduction := max 0 opts.accumulated_additional_deduction,
    accumulated_other_deduction := max 0 opts.accumulated_other_deduction,
    accumulated_pension_deduction := max 0 opts.accumulated_pension_deduction,
    accumulated_donation_deduction := max 0 opts.accumulated_donation_deduction }

/-- Every intermediate value computed while processing one valid record
(lines 350-426), named as the corresponding Python local. -/
structure StepData where
  month_key : YM
  reset_needed : Bool
  reset_reason : String
  monthly1 : List (YM × MAccum)
  accum_reset_reason : String
  records : List BillingRecord
  prev_month_total_amount : ℚ
  total_amount : ℚ
  revenue_bills : ℚ
  prev_annual_accumulated_income : ℚ
  monthly_income : ℚ
  accumulated_income : ℚ
  accumulated_months : Nat
  started : Bool
  accumulated_deduction : ℚ
  accumulated_special : ℚ
  accumulated_additional : ℚ
  accumulated_other : ℚ
  accumulated_pension : ℚ
  accumulated_donation : ℚ
  accumulated_taxable : ℚ
  tax_rate : ℚ
  quick_deduction : ℚ
  accumulated_total_tax : ℚ
  prev_total_paid_tax : ℚ
  rounded_accumulated_tax : ℚ
  rounded_prev_paid_tax : ℚ
  current_tax : ℚ
  effective_tax_rate : ℚ
  paid_tax : ℚ
  accumulated_tax : ℚ

/-- The body of the per-record loop of `calculate_tax` (lines 350-426) for a
record whose amount `amt` passed the validity test, as a pure computation of
all intermediate values. -/
def stepCore (opts : TaxOptions) (st : RunState) (r : BillingRecord) (amt : ℚ) :
    StepData :=
  let month_key := r.year_month
  -- lines 351-355: create this month's accumulator on first sight
  let monthly0 := match lookupM st.monthly month_key with
    | some _ => st.monthly
    | none => setM st.monthly month_key (freshAccum "")
  -- lines 357-368: gap / year-boundary detection
  let rr := detectReset st.last_income_month month_key
  let reset_needed := rr.1
  let reset_reason := rr.2
  -- lines 369-379: zero all running state and restart the month dict
  let accumulated_income0 := if reset_needed then 0 else st.accumulated_income
  let accumulated_tax0 := if reset_needed then 0 else st.accumulated_tax
  let accumulated_months0 := if reset_needed then 0 else st.accumulated_months
  let revenue_bills0 := if reset_needed then 0 else st.revenue_bills
  let monthly1 :=
    if reset_needed then [(month_key, freshAccum reset_reason)] else monthly0
  -- line 381
  let accum0 := (lookupM monthly1 month_key).getD (freshAccum "")
  -- lines 382-383
  let accum1 :=
    if reset_reason ≠ "" ∧ accum0.reset_reason = "" then
      { accum0 with reset_reason := reset_reason }
    else accum0
  -- lines 384-388
  let records1 := accum1.records ++ [r]
  let prev_month_total_amount := accum1.total_amount
  let total_amount := accum1.total_amount + amt
  let revenue_bills1 := revenue_bills0 + amt
  let prev_annual_accumulated_income := accumulated_income0
  -- lines 390-394
  let monthly_income0 := if opts.income_type = 1 then total_amount * 0.8 else total_amount
  let monthly_income := max 0 monthly_income0
  -- lines 396-402: first record of the month adds, later records replace
  let accumulated_income1 :=
    if accum1.started = false then accumulated_income0 + monthly_income
    else prev_annual_accumulated_income - accum1.monthly_income + monthly_income
  let accumulated_months1 :=
    if accum1.started = false then accumulated_months0 + 1 else accumulated_months0
  -- line 404
  let accumulated_months2 := max 1 accumulated_months1
  -- lines 406-411
  let accumulated_deduction := 5000 * (accumulated_months2 : ℚ)
  let accumulated_special := opts.accumulated_special_deduction * (accumulated_months2 : ℚ)
  let accumulated_additional := opts.accumulated_additional_deduction * (accumulated_months2 : ℚ)
  let accumulated_other := opts.accumulated_other_deduction * (accumulated_months2 : ℚ)
  let accumulated_pension := opts.accumulated_pension_deduction * (accumulated_months2 : ℚ)
  let accumulated_donation := opts.accumulated_donation_deduction
  -- lines 413-415
  let accumulated_taxable := max 0 (accumulated_income1 - accumulated_deduction -
    accumulated_special - accumulated_additional - accumulated_other -
    accumulated_pension - accumulated_donation)
  -- lines 417-418
  let rq := get_tax_rate_and_deduction accumulated_taxable
  let accumulated_total_tax := max 0 (accumulated_taxable * rq.1 - rq.2)
  -- lines 420-423
  let prev_total_paid_tax := accumulated_tax0
  let rounded_accumulated_tax := round2hu accumulated_total_tax
  let rounded_prev_paid_tax := round2hu prev_total_paid_tax
  let current_tax := max 0 (rounded_accumulated_tax - rounded_prev_paid_tax)
  -- line 424 (`Decimal` raises here when `amt = 0`; `step` models that)
  let effective_tax_rate := round2he (current_tax / amt * 100)
  -- lines 425-426
  let paid_tax := accum1.paid_tax + current_tax
  let accumulated_tax1 := prev_total_paid_tax + current_tax
  { month_key := month_key, reset_needed := reset_needed, reset_reason := reset_reason,
    monthly1 := monthly1, accum_reset_reason := accum1.reset_reason,
    records := records1, prev_month_total_amount := prev_month_total_amount,
    total_amount := total_amount, revenue_bills := revenue_bills1,
    prev_annual_accumulated_income := prev_annual_accumulated_income,
    monthly_income := monthly_income, accumulated_income := accumulated_income1,
    accumulated_months := accumulated_months2, started := true,
    accumulated_deduction := accumulated_deduction,
    accumulated_special := accumulated_special,
    accumulated_additional := accumulated_additional,
    accumulated_other := accumulated_other,
    accumulated_pension := accumulated_pension,
    accumulated_donation := accumulated_donation,
    accumulated_taxable := accumulated_taxable, tax_rate := rq.1,
    quick_deduction := rq.2, accumulated_total_tax := accumulated_total_tax,
    prev_total_paid_tax := prev_total_paid_tax,
    rounded_accumulated_tax := rounded_accumulated_tax,
    rounded_prev_paid_tax := rounded_prev_paid_tax, current_tax := current_tax,
    effective_tax_rate := effective_tax_rate, paid_tax := paid_tax,
    accumulated_tax := accumulated_tax1 }

/-- The trace entries (`calculation_steps`) of lines 428-461, built from the
step's intermediate values; reading the list also clears the accumulator's
`reset_reason` (modelled in `step`). -/
def buildSteps (opts : TaxOptions) (d : StepData) (amt : ℚ) : List String :=
  (if d.accum_reset_reason ≠ "" then ["重置原因: " ++ d.accum_reset_reason] else [])
  ++ [if 0 < d.prev_month_total_amount then
        "当月累计收入: " ++ fmt2 d.prev_month_total_amount ++ " + " ++ fmt2 amt ++
          " → " ++ fmt2 d.total_amount
      else "当月累计收入: " ++ fmt2 d.total_amount]
  ++ ["当月总收入额（扣除后）: " ++ fmt2 d.monthly_income]
  ++ [if d.records.length = 1 then
        "累计收入额: " ++ fmt2 d.prev_annual_accumulated_income ++ " + " ++
          fmt2 d.monthly_income ++ " → " ++ fmt2 d.accumulated_income
      else "累计收入额: " ++ fmt2 d.prev_annual_accumulated_income ++ " → " ++
        fmt2 d.accumulated_income]
  ++ ["累计月份: " ++ toString d.accumulated_months,
      "累计减除费用: 5000 × " ++ toString d.accumulated_months ++ " = " ++
        fmt2 d.accumulated_deduction,
      "累计专项扣除: " ++ fmt2 opts.accumulated_special_deduction ++ " × " ++
        toString d.accumulated_months ++ " = " ++ fmt2 d.accumulated_special,
      "累计专项附加扣除: " ++ fmt2 opts.accumulated_additional_deduction ++ " × " ++
        toString d.accumulated_months ++ " = " ++ fmt2 d.accumulated_additional,
      "累计其他扣除: " ++ fmt2 opts.accumulated_other_deduction ++ " × " ++
        toString d.accumulated_months ++ " = " ++ fmt2 d.accumulated_other,
      "累计个人养老金: " ++ fmt2 opts.accumulated_pension_deduction ++ " × " ++
        toString d.accumulated_months ++ " = " ++ fmt2 d.accumulated_pension,
      "累计准予扣除的捐赠额: " ++ fmt2 d.accumulated_donation,
      "应纳税所得额: " ++ fmt2 d.accumulated_income ++ " - " ++
        fmt2 d.accumulated_deduction ++ " - " ++ fmt2 d.accumulated_special ++ " - " ++
        fmt2 d.accumulated_additional ++ " - " ++ fmt2 d.accumulated_other ++ " - " ++
        fmt2 d.accumulated_pension ++ " - " ++ fmt2 d.accumulated_donation ++ " = " ++
        fmt2 d.accumulated_taxable,
      "税率: " ++ fmt0 (d.tax_rate * 100) ++ "%, 速算扣除数: " ++ fmt2 d.quick_deduction,
      "累计应纳税额: " ++ fmt2 d.accumulated_taxable ++ " × " ++ fmt2 d.tax_rate ++
        " - " ++ fmt2 d.quick_deduction ++ " = " ++ fmt2 d.accumulated_total_tax,
      "累计已预缴税额（含当月前期已缴）: " ++ fmt2 d.prev_total_paid_tax,
      "本次应缴税额: max(0, " ++ fmt2 d.accumulated_total_tax ++ " - " ++
        fmt2 d.rounded_prev_paid_tax ++ ") = " ++ fmt2 d.current_tax,
      "当月已缴税额（含本次）: " ++ fmt2 d.paid_tax,
      "实际税负: " ++ fmt2 d.effective_tax_rate ++ "%"]

/-- One output row (lines 463-492).  `tax_rate` and `effective_tax_rate` hold
the exact decimal value that the source converts with `float(...)`. -/
structure ResultRow where
  batch_no : String
  credential_num : String
  realname : String
  worker_id : Nat
  year_month : YM
  bill_amount : ℚ
  tax : ℚ
  income_type : ℤ
  income_type_name : String
  income_amount : ℚ
  prev_accumulated_income : ℚ
  accumulated_income : ℚ
  accumulated_months : Nat
  accumulated_deduction : ℚ
  accumulated_taxable : ℚ
  accumulated_special : ℚ
  accumulated_additional : ℚ
  accumulated_other : ℚ
  accumulated_pension : ℚ
  accumulated_donation : ℚ
  tax_rate : ℚ
  quick_deduction : ℚ
  accumulated_total_tax : ℚ
  prev_accumulated_tax : ℚ
  accumulated_tax : ℚ
  calculation_steps : List String
  effective_tax_rate : ℚ
  revenue_bills : ℚ
deriving DecidableEq

/-- The result dict of lines 463-492. -/
def mkRow (opts : TaxOptions) (credential_num : String) (r : BillingRecord)
    (amt : ℚ) (d : StepData) : ResultRow :=
  { batch_no := r.batch_no, credential_num := credential_num,
    realname := r.realname, worker_id := r.worker_id, year_month := d.month_key,
    bill_amount := amt, tax := round2he d.current_tax,
    income_type := opts.income_type,
    income_type_name := get_income_type_name opts.income_type,
    income_amount := round2he amt,
    prev_accumulated_income := round2he d.prev_annual_accumulated_income,
    accumulated_income := round2he d.accumulated_income,
    accumulated_months := d.accumulated_months,
    accumulated_deduction := round2he d.accumulated_deduction,
    accumulated_taxable := round2he d.accumulated_taxable,
    accumulated_special := round2he d.accumulated_special,
    accumulated_additional := round2he d.accumulated_additional,
    accumulated_other := round2he d.accumulated_other,
    accumulated_pension := round2he d.accumulated_pension,
    accumulated_donation := round2he d.accumulated_donation,
    tax_rate := round4he d.tax_rate, quick_deduction := round2he d.quick_deduction,
    accumulated_total_tax := max d.rounded_accumulated_tax d.rounded_prev_paid_tax,
    prev_accumulated_tax := round2he d.prev_total_paid_tax,
    accumulated_tax := round2he d.accumulated_tax,
    calculation_steps := buildSteps opts d amt,
    effective_tax_rate := d.effective_tax_rate, revenue_bills := round2he d.revenue_bills }

/-- The running state after one record (lines 385-426 mutations plus the
`last_income_month` advance of line 494; the month's accumulator is written
back with its `reset_reason` cleared by line 431). -/
def stepState (opts : TaxOptions) (st : RunState) (r : BillingRecord) (amt : ℚ) :
    RunState :=
  let d := stepCore opts st r amt
  { accumulated_income := d.accumulated_income,
    accumulated_tax := d.accumulated_tax,
    accumulated_months := d.accumulated_months,
    revenue_bills := d.revenue_bills,
    last_income_month := some d.month_key,
    monthly := setM d.monthly1 d.month_key
      { records := d.records, total_amount := d.total_amount,
        paid_tax := d.paid_tax, monthly_income := d.monthly_income,
        started := d.started, reset_reason := "" } }

/-- One iteration of the record loop (lines 345-495): skip invalid amounts,
raise (`error`) on the zero-amount division, otherwise emit the updated state
and the result row. -/
def step (opts : TaxOptions) (credential_num : String) (st : RunState)
    (r : BillingRecord) : Except Unit (RunState × Option ResultRow) :=
  match r.bill_amount with
  | none => .ok (st, none)
  | some amt =>
    if amt < 0 then .ok (st, none)
    else if amt = 0 then .error ()
    else .ok (stepState opts st r amt,
      some (mkRow opts credential_num r amt (stepCore opts st r amt)))

/-- The record loop of `calculate_tax`, threading the running state and
collecting the emitted rows; an error aborts the whole person. -/
def runRecords (opts : TaxOptions) (credential_num : String) :
    RunState → List BillingRecord → Except Unit (RunState × List ResultRow)
  | st, [] => .ok (st, [])
  | st, r :: rest =>
    match step opts credential_num st r with
    | .error e => .error e
    | .ok (st', none) => runRecords opts credential_num st' rest
    | .ok (st', some row) =>
      match runRecords opts credential_num st' rest with
      | .error e => .error e
      | .ok (stF, rows) => .ok (stF, row :: rows)

/-- The zeroed state of lines 335-340. -/
def initState : RunState :=
  { accumulated_income := 0, accumulated_tax := 0, accumulated_months := 0,
    revenue_bills := 0, last_income_month := none, monthly := [] }

/-- `calculate_tax` (lines 306-500) on an explicitly supplied record list
(the `records is None` fallback is the caller-side provider query, applied at
the call sites below).  The outer `try/except` returns `[]` on any exception
during one person's processing. -/
def calculate_tax (credential_num : String) (year : Nat)
    (records : List BillingRecord) (opts : TaxOptions) : List ResultRow :=
  if records.isEmpty then []
  else
    match runRecords (clampOpts opts) credential_num initState (sortRecords records) with
    | .ok (_, rows) => rows
    | .error _ => []

/-- Python truthiness of an optional string argument. -/
def strTruthy : Option String → Bool
  | none => false
  | some s => !(s == "")

/-- `credential_num and credential_num.strip() != ""` (line 267); its negation
is the condition of line 211. -/
def credGiven : Option String → Bool
  | none => false
  | some s => !(s == "") && !(s.trim == "")

/-- `x or default` on an optional string. -/
def orElseStr (o : Option String) (d : String) : String :=
  match o with
  | none => d
  | some s => if s == "" then d else s

/-- Lines 234-261: group the prefetched full-year records by person and run
`calculate_tax` per person on the person's complete year of records
(no batch filtering happens here). -/
def batchAllResults (year : Nat) (people_to_process : List Person)
    (all_year_records : List BillingRecord) (opts : TaxOptions) : List ResultRow :=
  people_to_process.flatMap (fun p =>
    let person_full_year_records :=
      all_year_records.filter (fun rec => rec.credential_num == p.credential_num)
    if person_full_year_records.isEmpty then []
    else calculate_tax p.credential_num year person_full_year_records
      { opts with realname := p.realname, worker_id := p.worker_id })

/-- `calculate_tax_by_batch` (lines 198-304), with the database/mock providers
abstracted as function arguments (`getPeopleFromBatch`, `getRecordsForPeople`,
`getRecords`) and the generated mock credential as `mockCred`.  The source's
outer `try/except ...: raise` re-raises any exception; no modelled operation
raises, and in particular the missing-argument branch of lines 271-273 logs
and returns an empty list rather than raising. -/
def calcTaxByBatch
    (getPeopleFromBatch : String → Option String → Option String → List Person)
    (getRecordsForPeople : List String → Nat → List BillingRecord)
    (getRecords : String → Nat → String → List BillingRecord)
    (mockCred : String) (year : Nat)
    (batch_no : Option String) (credential_num : Option String)
    (realname : Option String) (use_mock : Bool) (opts : TaxOptions) :
    Except String (List ResultRow) :=
  -- the shared person loop of lines 275-298 (mock and single-person paths)
  let runPeople : List Person → List ResultRow := fun people =>
    if people.isEmpty then []
    else people.flatMap (fun p =>
      if p.credential_num == "" then []
      else calculate_tax p.credential_num year
        (getRecords p.credential_num year p.realname)
        { opts with realname := p.realname, worker_id := p.worker_id })
  if use_mock then
    -- lines 210-219
    let people :=
      if !strTruthy batch_no && !credGiven credential_num then
        [{ credential_num := mockCred, realname := orElseStr realname "模拟用户",
           worker_id := 0 : Person }]
      else if strTruthy credential_num then
        [{ credential_num := credential_num.getD "",
           realname := orElseStr realname "模拟用户", worker_id := 0 : Person }]
      else []
    .ok (runPeople people)
  else if strTruthy batch_no then
    -- lines 221-265: the optimized batch path
    let b := batch_no.getD ""
    let people_to_process := getPeopleFromBatch b credential_num realname
    if people_to_process.isEmpty then .ok []
    else
      let credential_nums_to_fetch := people_to_process.map (fun p => p.credential_num)
      let all_year_records := getRecordsForPeople credential_nums_to_fetch year
      let all_results := batchAllResults year people_to_process all_year_records opts
      .ok (all_results.filter (fun res => res.batch_no == b))
  else if credGiven credential_num then
    -- lines 267-269: the single-person path
    .ok (runPeople [{ credential_num := credential_num.getD "",
                      realname := orElseStr realname "", worker_id := 0 }])
  else
    -- lines 271-273: log "必须提供批次号或身份证号进行计算" and return []
    .ok []

/-- The validity test of lines 345-348: a record is skipped when its
`bill_amount` is NULL or negative. -/
def validB (r : BillingRecord) : Bool :=
  match r.bill_amount with
  | none => false
  | some a => if a < 0 then false else true

/-- A rational that is an exact two-decimal money amount. -/
def twoDp (q : ℚ) : Prop := ∃ n : ℤ, q = (n : ℚ) / 100

/-! ### Generic facts about the rounding helpers -/

lemma roundHEint_intCast (n : ℤ) : roundHEint (n : ℚ) = n := by
  simp [roundHEint]

lemma roundHUint_intCast (n : ℤ) : roundHUint (n : ℚ) = n := by
  unfold roundHUint
  rcases le_or_lt 0 (n : ℚ) with h | h
  · rw [if_pos h, Int.floor_eq_iff]
    constructor <;> push_cast <;> linarith
  · have hf : ⌊1/2 - (n:ℚ)⌋ = -n := by
      rw [Int.floor_eq_iff]
      constructor <;> push_cast <;> linarith
    rw [if_neg (not_le.2 h), hf, neg_neg]

lemma twoDp_zero : twoDp 0 := ⟨0, by norm_num⟩

lemma twoDp_add {a b : ℚ} (ha : twoDp a) (hb : twoDp b) : twoDp (a + b) := by
  obtain ⟨m, rfl⟩ := ha
  obtain ⟨n, rfl⟩ := hb
  exact ⟨m + n, by push_cast; ring⟩

lemma twoDp_sub {a b : ℚ} (ha : twoDp a) (hb : twoDp b) : twoDp (a - b) := by
  obtain ⟨m, rfl⟩ := ha
  obtain ⟨n, rfl⟩ := hb
  exact ⟨m - n, by push_cast; ring⟩

lemma twoDp_max0 {a : ℚ} (ha : twoDp a) : twoDp (max 0 a) := by
  rcases max_cases 0 a with ⟨h, _⟩ | ⟨h, _⟩ <;> rw [h]
  · exact twoDp_zero
  · exact ha

lemma twoDp_round2hu (q : ℚ) : twoDp (round2hu q) := ⟨roundHUint (q * 100), rfl⟩

lemma round2he_eq_self {q : ℚ} (h : twoDp q) : round2he q = q := by
  obtain ⟨n, rfl⟩ := h
  unfold round2he
  rw [show ((n : ℚ) / 100 * 100) = (n : ℚ) by field_simp, roundHEint_intCast]

lemma round2hu_eq_self {q : ℚ} (h : twoDp q) : round2hu q = q := by
  obtain ⟨n, rfl⟩ := h
  unfold round2hu
  rw [show ((n : ℚ) / 100 * 100) = (n : ℚ) by field_simp, roundHUint_intCast]

lemma round2he_zero : round2he 0 = 0 := round2he_eq_self twoDp_zero

/-! ### Facts about the reset detector -/

lemma detectReset_false_snd {l : Option YM} {c : YM}
    (h : (detectReset l c).1 = false) : (detectReset l c).2 = "" := by
  cases l with
  | none => rfl
  | some last =>
    simp only [detectReset] at h ⊢
    split_ifs at h ⊢ <;> simp_all

/-! ### A stable sort commutes with filtering -/

section SortFilter

variable {α : Type} (r : α → α → Prop) [DecidableRel r]

lemma orderedInsert_eq_cons_of_forall {a : α} {l : List α}
    (h : ∀ c ∈ l, r a c) : List.orderedInsert r a l = a :: l := by
  cases l with
  | nil => rfl
  | cons b t => simp [List.orderedInsert, h b (by simp)]

lemma filter_orderedInsert [IsTotal α r] [IsTrans α r] (p : α → Bool) (a : α) :
    ∀ l : List α, l.Sorted r → p a = true →
      (List.orderedInsert r a l).filter p = List.orderedInsert r a (l.filter p)
  | [], _, hpa => by simp [List.orderedInsert, hpa]
  | b :: t, hs, hpa => by
    by_cases hab : r a b
    · rw [List.orderedInsert, if_pos hab, List.filter_cons, if_pos hpa]
      rw [orderedInsert_eq_cons_of_forall r]
      intro c hc
      rcases List.mem_cons.1 (List.mem_of_mem_filter hc) with rfl | hct
      · exact hab
      · exact Trans.trans hab (List.rel_of_sorted_cons hs c hct)
    · rw [List.orderedInsert, if_neg hab, List.filter_cons, List.filter_cons]
      by_cases hpb : p b = true
      · rw [if_pos hpb, if_pos hpb, List.orderedInsert, if_neg hab,
          filter_orderedInsert p a t hs.tail hpa]
      · rw [if_neg hpb, if_neg hpb]
        exact filter_orderedInsert p a t hs.tail hpa

lemma filter_orderedInsert_neg (p : α → Bool) (a : α) :
    ∀ l : List α, p a = false →
      (List.orderedInsert r a l).filter p = l.filter p
  | [], hpa => by simp [List.orderedInsert, hpa]
  | b :: t, hpa => by
    by_cases hab : r a b
    · rw [List.orderedInsert, if_pos hab, List.filter_cons, if_neg (by simp [hpa])]
    · rw [List.orderedInsert, if_neg hab, List.filter_cons, List.filter_cons]
      rw [filter_orderedInsert_neg p a t hpa]

lemma filter_insertionSort [IsTotal α r] [IsTrans α r] (p : α → Bool) :
    ∀ l : List α,
      (List.insertionSort r l).filter p = List.insertionSort r (l.filter p)
  | [] => rfl
  | a :: t => by
    simp only [List.insertionSort, List.filter_cons]
    by_cases hpa : p a = true
    · rw [if_pos hpa, filter_orderedInsert r p a _ (List.sorted_insertionSort r t) hpa,
        filter_insertionSort p t]
      simp only [List.insertionSort]
    · rw [if_neg hpa, filter_orderedInsert_neg r p a _ (by simpa using hpa),
        filter_insertionSort p t]

end SortFilter

/-! ### Facts about the record loop -/

lemma step_invalid {opts : TaxOptions} {cred : String} {st : RunState}
    {r : BillingRecord} (h : validB r = false) :
    step opts cred st r = .ok (st, none) := by
  unfold validB at h
  unfold step
  cases hb : r.bill_amount with
  | none => rfl
  | some a =>
    rw [hb] at h
    dsimp only at h ⊢
    split_ifs at h ⊢ <;> simp_all

lemma runRecords_filter (opts : TaxOptions) (cred : String) :
    ∀ (l : List BillingRecord) (st : RunState),
      runRecords opts cred st l = runRecords opts cred st (l.filter validB)
  | [], st => rfl
  | r :: t, st => by
    cases hv : validB r
    · rw [List.filter_cons, if_neg (by simp [hv])]
      conv_lhs => rw [runRecords]
      rw [step_invalid hv]
      dsimp only
      exact runRecords_filter opts cred t st
    · rw [List.filter_cons, if_pos (by simp [hv])]
      unfold runRecords
      cases hstep : step opts cred st r with
      | error e => rfl
      | ok p =>
        rcases p with ⟨st', row?⟩
        cases row? with
        | none =>
          dsimp only
          exact runRecords_filter opts cred t st'
        | some row =>
          dsimp only
          rw [runRecords_filter opts cred t st']

lemma step_zero {opts : TaxOptions} {cred : String} {st : RunState}
    {r : BillingRecord} (h : r.bill_amount = some 0) :
    step opts cred st r = .error () := by
  unfold step
  rw [h]
  dsimp only
  rw [if_neg (by norm_num), if_pos rfl]

lemma runRecords_error_of_zero (opts : TaxOptions) (cred : String) :
    ∀ (l : List BillingRecord) (st : RunState) (r0 : BillingRecord),
      r0 ∈ l → r0.bill_amount = some 0 →
      runRecords opts cred st l = .error ()
  | [], _, r0, hmem, _ => absurd hmem (List.not_mem_nil r0)
  | r :: t, st, r0, hmem, hz => by
    rcases List.mem_cons.1 hmem with rfl | hmem'
    · conv_lhs => rw [runRecords]
      rw [step_zero hz]
    · conv_lhs => rw [runRecords]
      rcases hstep : step opts cred st r with e | ⟨st', row?⟩
      · cases e
        rfl
      · cases row? with
        | none =>
          dsimp only
          exact runRecords_error_of_zero opts cred t st' r0 hmem' hz
        | some row =>
          dsimp only
          rw [runRecords_error_of_zero opts cred t st' r0 hmem' hz]

lemma step_ok_none_inv {opts : TaxOptions} {cred : String} {st st' : RunState}
    {r : BillingRecord} (h : step opts cred st r = .ok (st', none)) : st' = st := by
  unfold step at h
  cases hb : r.bill_amount with
  | none =>
    rw [hb] at h
    dsimp only at h
    exact (Prod.mk.injEq .. ▸ Except.ok.inj h).1.symm
  | some amt =>
    rw [hb] at h
    dsimp only at h
    split_ifs at h
    · exact (Prod.mk.injEq .. ▸ Except.ok.inj h).1.symm
    · simp at h

lemma step_ok_some_inv {opts : TaxOptions} {cred : String} {st st' : RunState}
    {r : BillingRecord} {row : ResultRow}
    (h : step opts cred st r = .ok (st', some row)) :
    ∃ amt, r.bill_amount = some amt ∧ st' = stepState opts st r amt ∧
      row = mkRow opts cred r amt (stepCore opts st r amt) := by
  unfold step at h
  cases hb : r.bill_amount with
  | none =>
    rw [hb] at h
    simp at h
  | some amt =>
    rw [hb] at h
    dsimp only at h
    split_ifs at h
    · simp at h
    · simp only [Except.ok.injEq, Prod.mk.injEq, Option.some.injEq] at h
      exact ⟨amt, rfl, h.1.symm, h.2.symm⟩

lemma stepCore_tax_defs (opts : TaxOptions) (st : RunState) (r : BillingRecord)
    (amt : ℚ) :
    (stepCore opts st r amt).current_tax =
      max 0 (round2hu (stepCore opts st r amt).accumulated_total_tax -
        round2hu (stepCore opts st r amt).prev_total_paid_tax) ∧
    (stepCore opts st r amt).accumulated_total_tax =
      max 0 ((stepCore opts st r amt).accumulated_taxable *
        (stepCore opts st r amt).tax_rate -
        (stepCore opts st r amt).quick_deduction) ∧
    ((stepCore opts st r amt).tax_rate, (stepCore opts st r amt).quick_deduction) =
      get_tax_rate_and_deduction (stepCore opts st r amt).accumulated_taxable ∧
    (stepCore opts st r amt).accumulated_tax =
      (stepCore opts st r amt).prev_total_paid_tax +
        (stepCore opts st r amt).current_tax ∧
    (stepCore opts st r amt).prev_total_paid_tax =
      (if (detectReset st.last_income_month r.year_month).1 = true then 0
        else st.accumulated_tax) := by
  refine ⟨?_, ?_, ?_, ?_, ?_⟩ <;> simp only [stepCore]

lemma stepCore_current_tax_twoDp (opts : TaxOptions) (st : RunState)
    (r : BillingRecord) (amt : ℚ) : twoDp (stepCore opts st r amt).current_tax := by
  rw [(stepCore_tax_defs opts st r amt).1]
  exact twoDp_max0 (twoDp_sub (twoDp_round2hu _) (twoDp_round2hu _))

lemma stepCore_current_tax_nonneg (opts : TaxOptions) (st : RunState)
    (r : BillingRecord) (amt : ℚ) : 0 ≤ (stepCore opts st r amt).current_tax := by
  rw [(stepCore_tax_defs opts st r amt).1]
  exact le_max_left 0 _

lemma stepCore_prev_twoDp {st : RunState} (h : twoDp st.accumulated_tax)
    (opts : TaxOptions) (r : BillingRecord) (amt : ℚ) :
    twoDp (stepCore opts st r amt).prev_total_paid_tax := by
  rw [(stepCore_tax_defs opts st r amt).2.2.2.2]
  by_cases hr : (detectReset st.last_income_month r.year_month).1 = true
  · rw [if_pos hr]
    exact twoDp_zero
  · rw [if_neg hr]
    exact h

lemma mkRow_tax_fields (opts : TaxOptions) (cred : String) (r : BillingRecord)
    (amt : ℚ) (d : StepData) :
    (mkRow opts cred r amt d).tax = round2he d.current_tax ∧
    (mkRow opts cred r amt d).prev_accumulated_tax = round2he d.prev_total_paid_tax ∧
    (mkRow opts cred r amt d).accumulated_tax = round2he d.accumulated_tax :=
  ⟨rfl, rfl, rfl⟩

lemma stepState_accumulated_tax (opts : TaxOptions) (st : RunState)
    (r : BillingRecord) (amt : ℚ) :
    (stepState opts st r amt).accumulated_tax = (stepCore opts st r amt).accumulated_tax :=
  rfl

lemma runRecords_rows_inv (opts : TaxOptions) (cred : String) :
    ∀ (l : List BillingRecord) (st stF : RunState) (rows : List ResultRow),
      twoDp st.accumulated_tax →
      runRecords opts cred st l = .ok (stF, rows) →
      twoDp stF.accumulated_tax ∧
        ∀ row ∈ rows,
          row.accumulated_tax = row.prev_accumulated_tax + row.tax ∧ 0 ≤ row.tax
  | [], st, stF, rows, h2, hrun => by
    simp only [runRecords, Except.ok.injEq, Prod.mk.injEq] at hrun
    obtain ⟨rfl, rfl⟩ := hrun
    exact ⟨h2, by simp⟩
  | r :: t, st, stF, rows, h2, hrun => by
    rw [runRecords] at hrun
    rcases hstep : step opts cred st r with e | ⟨st', row?⟩ <;> rw [hstep] at hrun
    · simp at hrun
    · cases row? with
      | none =>
        dsimp only at hrun
        rw [step_ok_none_inv hstep] at hrun
        exact runRecords_rows_inv opts cred t st stF rows h2 hrun
      | some row =>
        dsimp only at hrun
        obtain ⟨amt, hamt, hst', hrow⟩ := step_ok_some_inv hstep
        have hprev : twoDp (stepCore opts st r amt).prev_total_paid_tax :=
          stepCore_prev_twoDp h2 opts r amt
        have hcur : twoDp (stepCore opts st r amt).current_tax :=
          stepCore_current_tax_twoDp opts st r amt
        have hacc : twoDp (stepCore opts st r amt).accumulated_tax := by
          rw [(stepCore_tax_defs opts st r amt).2.2.2.1]
          exact twoDp_add hprev hcur
        have hst2 : twoDp st'.accumulated_tax := by
          rw [hst', stepState_accumulated_tax]
          exact hacc
        rcases hrec : runRecords opts cred st' t with e' | ⟨stF', rows'⟩ <;>
          rw [hrec] at hrun
        · simp at hrun
        · dsimp only at hrun
          simp only [Except.ok.injEq, Prod.mk.injEq] at hrun
          obtain ⟨rfl, rfl⟩ := hrun
          obtain ⟨hF, hrows⟩ := runRecords_rows_inv opts cred t st' stF' rows' hst2 hrec
          refine ⟨hF, ?_⟩
          intro row2 hmem
          rcases List.mem_cons.1 hmem with rfl | hmem'
          · obtain ⟨htax, hprevf, haccf⟩ := mkRow_tax_fields opts cred r amt
              (stepCore opts st r amt)
          
            rw [hrow, htax, hprevf, haccf, round2he_eq_self hprev,
              round2he_eq_self hcur, round2he_eq_self hacc,
              (stepCore_tax_defs opts st r amt).2.2.2.1]
            exact ⟨rfl, stepCore_current_tax_nonneg opts st r amt⟩
          · exact hrows row2 hmem'

lemma lookupM_setM (m : List (YM × MAccum)) (k : YM) (v : MAccum) :
    lookupM (setM m k v) k = some v := by
  induction m with
  | nil => simp [setM, lookupM]
  | cons p rest ih =>
    rcases p with ⟨k', w⟩
    by_cases hk : k' = k
    · simp [setM, lookupM, hk]
    · simp [setM, lookupM, hk, ih]

lemma stepCore_reset (opts : TaxOptions) (st : RunState) (r : BillingRecord)
    (amt : ℚ) (hr : (detectReset st.last_income_month r.year_month).1 = true) :
    (stepCore opts st r amt).prev_annual_accumulated_income = 0 ∧
    (stepCore opts st r amt).prev_total_paid_tax = 0 ∧
    (stepCore opts st r amt).accumulated_months = 1 ∧
    (stepCore opts st r amt).revenue_bills = amt ∧
    (stepCore opts st r amt).accumulated_income = (stepCore opts st r amt).monthly_income := by
  simp [stepCore, hr, lookupM, freshAccum, not_and_self_iff]

lemma stepCore_noreset (opts : TaxOptions) (st : RunState) (r : BillingRecord)
    (amt : ℚ) (hr : (detectReset st.last_income_month r.year_month).1 = false) :
    (stepCore opts st r amt).revenue_bills = st.revenue_bills + amt ∧
    (stepCore opts st r amt).prev_annual_accumulated_income = st.accumulated_income ∧
    (stepCore opts st r amt).prev_total_paid_tax = st.accumulated_tax := by
  simp [stepCore, hr]

lemma mkRow_more_fields (opts : TaxOptions) (cred : String) (r : BillingRecord)
    (amt : ℚ) (d : StepData) :
    (mkRow opts cred r amt d).prev_accumulated_income =
      round2he d.prev_annual_accumulated_income ∧
    (mkRow opts cred r amt d).accumulated_months = d.accumulated_months ∧
    (mkRow opts cred r amt d).revenue_bills = round2he d.revenue_bills ∧
    (mkRow opts cred r amt d).batch_no = r.batch_no :=
  ⟨rfl, rfl, rfl, rfl⟩

/-- C2: `get_tax_rate_and_deduction` floors its input at 0 and then returns
exactly the seven-bracket table: rate 3% with quick deduction 0 up to 36000,
10%/2520 up to 144000, 20%/16920 up to 300000, 25%/31920 up to 420000,
30%/52920 up to 660000, 35%/85920 up to 960000, and 45%/181920 above; in
particular 36000 still yields (0.03, 0) while 36000.01 yields (0.10, 2520). -/
theorem C2_bracket_table :
    ∀ x : ℚ,
      (x ≤ 36000 → get_tax_rate_and_deduction x = (0.03, 0)) ∧
      (36000 < x → x ≤ 144000 → get_tax_rate_and_deduction x = (0.10, 2520)) ∧
      (144000 < x → x ≤ 300000 → get_tax_rate_and_deduction x = (0.20, 16920)) ∧
      (300000 < x → x ≤ 420000 → get_tax_rate_and_deduction x = (0.25, 31920)) ∧
      (420000 < x → x ≤ 660000 → get_tax_rate_and_deduction x = (0.30, 52920)) ∧
      (660000 < x → x ≤ 960000 → get_tax_rate_and_deduction x = (0.35, 85920)) ∧
      (960000 < x → get_tax_rate_and_deduction x = (0.45, 181920)) ∧
      get_tax_rate_and_deduction 36000 = (0.03, 0) ∧
      get_tax_rate_and_deduction (36000 + 1/100) = (0.10, 2520) := by
  intro x
  unfold get_tax_rate_and_deduction
  refine ⟨fun h => ?_, fun h1 h2 => ?_, fun h1 h2 => ?_, fun h1 h2 => ?_,
    fun h1 h2 => ?_, fun h1 h2 => ?_, fun h1 => ?_, ?_, ?_⟩
  · rw [if_pos (max_le (by norm_num) h)]
    norm_num
  · rw [max_eq_right (by linarith), if_neg (by linarith), if_pos h2]
    norm_num
  · rw [max_eq_right (by linarith), if_neg (by linarith), if_neg (by linarith),
      if_pos h2]
    norm_num
  · rw [max_eq_right (by linarith), if_neg (by linarith), if_neg (by linarith),
      if_neg (by linarith), if_pos h2]
    norm_num
  · rw [max_eq_right (by linarith), if_neg (by linarith), if_neg (by linarith),
      if_neg (by linarith), if_neg (by linarith), if_pos h2]
    norm_num
  · rw [max_eq_right (by linarith), if_neg (by linarith), if_neg (by linarith),
      if_neg (by linarith), if_neg (by linarith), if_neg (by linarith), if_pos h2]
    norm_num
  · rw [max_eq_right (by linarith), if_neg (by linarith), if_neg (by linarith),
      if_neg (by linarith), if_neg (by linarith), if_neg (by linarith),
      if_neg (by linarith)]
    norm_num
  · rw [max_eq_right (by norm_num), if_pos (by norm_num)]
    norm_num
  · rw [max_eq_right (by norm_num), if_neg (by norm_num), if_pos (by norm_num)]
    norm_num

/-- Witness for C2 at the concrete inputs 100000 (second bracket) and the
36000 / 36000.01 boundary pair. -/
theorem C2_bracket_table_witness :
    get_tax_rate_and_deduction 100000 = (0.10, 2520) ∧
    get_tax_rate_and_deduction 36000 = (0.03, 0) ∧
    get_tax_rate_and_deduction (36000 + 1/100) = (0.10, 2520) :=
  ⟨(C2_bracket_table 100000).2.1 (by norm_num) (by norm_num),
    (C2_bracket_table 36000).2.2.2.2.2.2.2.1,
    (C2_bracket_table 0).2.2.2.2.2.2.2.2⟩

/-- C1: between two consecutively processed records the running state is
zeroed before processing the later record exactly when the two "YYYY-MM"
values differ in calendar year, or share the year with a month difference
strictly greater than 1 (part 1); when the reset fires the emitted row shows
`prev_accumulated_income = 0`, `prev_accumulated_tax = 0` and
`accumulated_months = 1`, and the revenue total restarts from the current
amount (part 2); when it does not fire the running totals carry over
(part 3); in particular "2025-12" followed by "2026-01" resets, the second
row having `prev_accumulated_income = 0` and `accumulated_months = 1`
(part 4). -/
theorem C1_reset_rule :
    (∀ last cur : YM, ((detectReset (some last) cur).1 = true ↔
      (cur.year ≠ last.year ∨ (cur.year = last.year ∧
        1 < (cur.month : ℤ) - (last.month : ℤ))))) ∧
    (∀ (opts : TaxOptions) (cred : String) (st : RunState) (r : BillingRecord)
      (amt : ℚ), (detectReset st.last_income_month r.year_month).1 = true →
      (mkRow opts cred r amt (stepCore opts st r amt)).prev_accumulated_income = 0 ∧
      (mkRow opts cred r amt (stepCore opts st r amt)).prev_accumulated_tax = 0 ∧
      (mkRow opts cred r amt (stepCore opts st r amt)).accumulated_months = 1 ∧
      (stepCore opts st r amt).accumulated_months = 1 ∧
      (stepCore opts st r amt).revenue_bills = amt ∧
      (stepCore opts st r amt).prev_total_paid_tax = 0) ∧
    (∀ (opts : TaxOptions) (cred : String) (st : RunState) (r : BillingRecord)
      (amt : ℚ), (detectReset st.last_income_month r.year_month).1 = false →
      (stepCore opts st r amt).revenue_bills = st.revenue_bills + amt ∧
      (mkRow opts cred r amt (stepCore opts st r amt)).prev_accumulated_income =
        round2he st.accumulated_income) ∧
    ((calculate_tax "P" 2025 [⟨1, ⟨2025, 12⟩, some 10000, "B", "N", 0, "P"⟩,
        ⟨2, ⟨2026, 1⟩, some 10000, "B", "N", 0, "P"⟩] ⟨0, 1, "", 0, 0, 0, 0, 0⟩).map
      (fun row => (row.prev_accumulated_income, row.accumulated_months)) =
      [(0, 1), (0, 1)]) := by
  refine ⟨?_, ?_, ?_, ?_⟩
  · intro last cur
    simp only [detectReset]
    split_ifs with h1 h2
    · simp [h1]
    · constructor
      · intro _
        exact Or.inr ⟨by omega, h2⟩
      · intro _
        rfl
    · simp only [Bool.false_eq_true, false_iff]
      push_neg
      omega
  · intro opts cred st r amt hr
    obtain ⟨hp, hpt, hm, hrev, _⟩ := stepCore_reset opts st r amt hr
    obtain ⟨hr1, hr2, _, _⟩ := mkRow_more_fields opts cred r amt (stepCore opts st r amt)
    obtain ⟨_, hr3, _⟩ := mkRow_tax_fields opts cred r amt (stepCore opts st r amt)
    exact ⟨by rw [hr1, hp, round2he_zero], by rw [hr3, hpt, round2he_zero],
      by rw [hr2, hm], hm, hrev, hpt⟩
  · intro opts cred st r amt hr
    obtain ⟨hrev, hp, _⟩ := stepCore_noreset opts st r amt hr
    obtain ⟨hr1, _, _, _⟩ := mkRow_more_fields opts cred r amt (stepCore opts st r amt)
    exact ⟨hrev, by rw [hr1, hp]⟩
  · norm_num [calculate_tax, sortRecords, List.insertionSort, List.orderedInsert,
      runRecords, step, stepState, stepCore, mkRow, clampOpts, initState, lookupM,
      setM, detectReset, freshAccum, get_tax_rate_and_deduction, round2he, round2hu,
      round4he, roundHEint, roundHUint, keyLE, fmtYM]

/-- Witness for C1: a December 2025 state followed by a January 2026 record
fires the reset, and the reset parts of the theorem then give a first-month
row. -/
theorem C1_reset_rule_witness :
    ((detectReset (some ⟨2025, 12⟩) ⟨2026, 1⟩).1 = true ↔
      ((⟨2026, 1⟩ : YM).year ≠ (⟨2025, 12⟩ : YM).year ∨
        ((⟨2026, 1⟩ : YM).year = (⟨2025, 12⟩ : YM).year ∧
          1 < ((⟨2026, 1⟩ : YM).month : ℤ) - ((⟨2025, 12⟩ : YM).month : ℤ)))) ∧
    (stepCore ⟨0, 1, "", 0, 0, 0, 0, 0⟩
      ⟨8000, 90, 1, 10000, some ⟨2025, 12⟩, []⟩
      ⟨2, ⟨2026, 1⟩, some 10000, "B", "N", 0, "P"⟩ 10000).accumulated_months = 1 ∧
    (stepCore ⟨0, 1, "", 0, 0, 0, 0, 0⟩
      ⟨8000, 90, 1, 10000, some ⟨2025, 1⟩, []⟩
      ⟨2, ⟨2025, 2⟩, some 500, "B", "N", 0, "P"⟩ 500).revenue_bills = 10000 + 500 :=
  ⟨C1_reset_rule.1 ⟨2025, 12⟩ ⟨2026, 1⟩,
    (C1_reset_rule.2.1 ⟨0, 1, "", 0, 0, 0, 0, 0⟩ "P"
      ⟨8000, 90, 1, 10000, some ⟨2025, 12⟩, []⟩
      ⟨2, ⟨2026, 1⟩, some 10000, "B", "N", 0, "P"⟩ 10000 rfl).2.2.2.1,
    (C1_reset_rule.2.2.1 ⟨0, 1, "", 0, 0, 0, 0, 0⟩ "P"
      ⟨8000, 90, 1, 10000, some ⟨2025, 1⟩, []⟩
      ⟨2, ⟨2025, 2⟩, some 500, "B", "N", 0, "P"⟩ 500 rfl).1⟩

/-- C3: for every processed record the incremental tax is
`max(0, round2hu(accumulated_total_tax) - round2hu(prev_accumulated_tax))`
with `accumulated_total_tax = max(0, taxable * rate - quick_deduction)`, the
bracket pair coming from `get_tax_rate_and_deduction`; the emitted row's
`tax` field equals exactly that amount, the running `accumulated_tax` is
advanced by exactly it, and it is non-negative.  The roundings are
round-half-up (0.005 rounds to 0.01, unlike the half-even quantize). -/
theorem C3_incremental_tax :
    (∀ (opts : TaxOptions) (cred : String) (st : RunState) (r : BillingRecord)
      (amt : ℚ),
      (stepCore opts st r amt).current_tax =
        max 0 (round2hu (stepCore opts st r amt).accumulated_total_tax -
          round2hu (stepCore opts st r amt).prev_total_paid_tax) ∧
      (stepCore opts st r amt).accumulated_total_tax =
        max 0 ((stepCore opts st r amt).accumulated_taxable *
          (stepCore opts st r amt).tax_rate -
          (stepCore opts st r amt).quick_deduction) ∧
      ((stepCore opts st r amt).tax_rate, (stepCore opts st r amt).quick_deduction) =
        get_tax_rate_and_deduction (stepCore opts st r amt).accumulated_taxable ∧
      (mkRow opts cred r amt (stepCore opts st r amt)).tax =
        (stepCore opts st r amt).current_tax ∧
      (stepState opts st r amt).accumulated_tax =
        (stepCore opts st r amt).prev_total_paid_tax +
          (stepCore opts st r amt).current_tax ∧
      0 ≤ (stepCore opts st r amt).current_tax) ∧
    round2hu (5/1000) = 1/100 ∧ round2he (5/1000) = 0 := by
  refine ⟨?_, ?_, ?_⟩
  · intro opts cred st r amt
    obtain ⟨h1, h2, h3, h4, _⟩ := stepCore_tax_defs opts st r amt
    refine ⟨h1, h2, h3, ?_, ?_, stepCore_current_tax_nonneg opts st r amt⟩
    · rw [(mkRow_tax_fields opts cred r amt (stepCore opts st r amt)).1,
        round2he_eq_self (stepCore_current_tax_twoDp opts st r amt)]
    · rw [stepState_accumulated_tax, h4]
  · norm_num [round2hu, roundHUint]
  · norm_num [round2he, roundHEint]

/-- C8: one record in "2025-01" with amount 10000, labor income type 1 and no
extra deductions yields exactly one row with monthly income 8000 (the income
field after the 20% deduction), accumulated_deduction 5000,
accumulated_taxable 3000, tax rate 0.03, quick deduction 0 and tax 90.00. -/
theorem C8_single_record :
    ((calculate_tax "ID1" 2025 [⟨1, ⟨2025, 1⟩, some 10000, "B1", "N", 7, "ID1"⟩]
        ⟨7, 1, "N", 0, 0, 0, 0, 0⟩).map
      (fun row => (row.accumulated_income, row.accumulated_deduction,
        row.accumulated_taxable, row.tax_rate, row.quick_deduction, row.tax)) =
      [(8000, 5000, 3000, 0.03, 0, 90)]) ∧
    (stepCore (clampOpts ⟨7, 1, "N", 0, 0, 0, 0, 0⟩) initState
      ⟨1, ⟨2025, 1⟩, some 10000, "B1", "N", 7, "ID1"⟩ 10000).monthly_income = 8000 ∧
    (calculate_tax "ID1" 2025 [⟨1, ⟨2025, 1⟩, some 10000, "B1", "N", 7, "ID1"⟩]
      ⟨7, 1, "N", 0, 0, 0, 0, 0⟩).length = 1 := by
  refine ⟨?_, ?_, ?_⟩
  · norm_num [calculate_tax, sortRecords, List.insertionSort, List.orderedInsert,
      runRecords, step, stepState, stepCore, mkRow, clampOpts, initState, lookupM,
      setM, detectReset, freshAccum, get_tax_rate_and_deduction, round2he, round2hu,
      round4he, roundHEint, roundHUint, keyLE]
  · norm_num [stepCore, clampOpts, initState, lookupM, setM, detectReset, freshAccum]
  · norm_num [calculate_tax, sortRecords, List.insertionSort, List.orderedInsert,
      runRecords, step, stepState, stepCore, mkRow, clampOpts, initState, lookupM,
      setM, detectReset, freshAccum, get_tax_rate_and_deduction, round2he, round2hu,
      round4he, roundHEint, roundHUint, keyLE]

lemma stepCore_existing_month (opts : TaxOptions) (st : RunState)
    (r : BillingRecord) (amt : ℚ) {ac : MAccum}
    (hr : (detectReset st.last_income_month r.year_month).1 = false)
    (hac : lookupM st.monthly r.year_month = some ac) (hst : ac.started = true) :
    (stepCore opts st r amt).monthly_income =
      max 0 (if opts.income_type = 1 then (ac.total_amount + amt) * 0.8
        else ac.total_amount + amt) ∧
    (stepCore opts st r amt).accumulated_income =
      st.accumulated_income - ac.monthly_income +
        (stepCore opts st r amt).monthly_income ∧
    (stepCore opts st r amt).accumulated_months = max 1 st.accumulated_months := by
  have hsnd := detectReset_false_snd hr
  refine ⟨?_, ?_, ?_⟩ <;> simp [stepCore, hr, hsnd, hac, hst]

lemma stepCore_fresh_month (opts : TaxOptions) (st : RunState)
    (r : BillingRecord) (amt : ℚ)
    (hr : (detectReset st.last_income_month r.year_month).1 = false)
    (hac : lookupM st.monthly r.year_month = none) :
    (stepCore opts st r amt).monthly_income =
      max 0 (if opts.income_type = 1 then amt * 0.8 else amt) ∧
    (stepCore opts st r amt).accumulated_income =
      st.accumulated_income + (stepCore opts st r amt).monthly_income ∧
    (stepCore opts st r amt).accumulated_months = st.accumulated_months + 1 := by
  have hsnd := detectReset_false_snd hr
  have hlk := lookupM_setM st.monthly r.year_month (freshAccum "")
  simp only [freshAccum] at hlk
  refine ⟨?_, ?_, ?_⟩
  · simp [stepCore, hr, hsnd, hac, hlk, freshAccum]
  · simp [stepCore, hr, hsnd, hac, hlk, freshAccum]
  · simp [stepCore, hr, hsnd, hac, hlk, freshAccum]

/-- C4: within a running month (no reset, month already started) the annual
income is updated by replacement — old accumulated income minus the month's
previously recorded monthly income plus the recomputed monthly income, where
the monthly income is the new month total times 0.8 for income type 1 (else
the plain total), floored at 0 — and the month count does not grow; the first
record of a fresh month instead adds the monthly income and increments the
month count by 1; and right after a reset the annual income restarts at
exactly the monthly income with month count 1. -/
theorem C4_replace_not_add :
    (∀ (opts : TaxOptions) (st : RunState) (r : BillingRecord) (amt : ℚ)
      (ac : MAccum),
      (detectReset st.last_income_month r.year_month).1 = false →
      lookupM st.monthly r.year_month = some ac → ac.started = true →
      1 ≤ st.accumulated_months →
      (stepCore opts st r amt).accumulated_income =
        st.accumulated_income - ac.monthly_income +
          (stepCore opts st r amt).monthly_income ∧
      (stepCore opts st r amt).monthly_income =
        max 0 (if opts.income_type = 1 then (ac.total_amount + amt) * 0.8
          else ac.total_amount + amt) ∧
      (stepCore opts st r amt).accumulated_months = st.accumulated_months) ∧
    (∀ (opts : TaxOptions) (st : RunState) (r : BillingRecord) (amt : ℚ),
      (detectReset st.last_income_month r.year_month).1 = false →
      lookupM st.monthly r.year_month = none →
      (stepCore opts st r amt).accumulated_income =
        st.accumulated_income + (stepCore opts st r amt).monthly_income ∧
      (stepCore opts st r amt).monthly_income =
        max 0 (if opts.income_type = 1 then amt * 0.8 else amt) ∧
      (stepCore opts st r amt).accumulated_months = st.accumulated_months + 1) ∧
    (∀ (opts : TaxOptions) (st : RunState) (r : BillingRecord) (amt : ℚ),
      (detectReset st.last_income_month r.year_month).1 = true →
      (stepCore opts st r amt).accumulated_income =
        (stepCore opts st r amt).monthly_income ∧
      (stepCore opts st r amt).accumulated_months = 1) := by
  refine ⟨?_, ?_, ?_⟩
  · intro opts st r amt ac hr hac hst hm
    obtain ⟨h1, h2, h3⟩ := stepCore_existing_month opts st r amt hr hac hst
    exact ⟨h2, h1, by rw [h3]; omega⟩
  · intro opts st r amt hr hac
    obtain ⟨h1, h2, h3⟩ := stepCore_fresh_month opts st r amt hr hac
    exact ⟨h2, h1, h3⟩
  · intro opts st r amt hr
    obtain ⟨_, _, hm, _, hinc⟩ := stepCore_reset opts st r amt hr
    exact ⟨hinc, hm⟩

/-- Witness for C4: a second record of 5000 posted to an already-started
month (total 10000, monthly income 8000) replaces the month's contribution,
keeping the month count at 1; a fresh-month record and a post-reset record
exercise the other two parts. -/
theorem C4_replace_not_add_witness :
    ((stepCore ⟨0, 1, "", 0, 0, 0, 0, 0⟩
        ⟨8000, 90, 1, 10000, some ⟨2025, 1⟩,
          [(⟨2025, 1⟩, ⟨[], 10000, 90, 8000, true, ""⟩)]⟩
        ⟨2, ⟨2025, 1⟩, some 5000, "B", "N", 0, "P"⟩ 5000).accumulated_income =
      8000 - 8000 + (stepCore ⟨0, 1, "", 0, 0, 0, 0, 0⟩
        ⟨8000, 90, 1, 10000, some ⟨2025, 1⟩,
          [(⟨2025, 1⟩, ⟨[], 10000, 90, 8000, true, ""⟩)]⟩
        ⟨2, ⟨2025, 1⟩, some 5000, "B", "N", 0, "P"⟩ 5000).monthly_income ∧
      (stepCore ⟨0, 1, "", 0, 0, 0, 0, 0⟩
        ⟨8000, 90, 1, 10000, some ⟨2025, 1⟩,
          [(⟨2025, 1⟩, ⟨[], 10000, 90, 8000, true, ""⟩)]⟩
        ⟨2, ⟨2025, 1⟩, some 5000, "B", "N", 0, "P"⟩ 5000).monthly_income =
        max 0 (if (1 : ℤ) = 1 then ((10000 : ℚ) + 5000) * 0.8 else 10000 + 5000) ∧
      (stepCore ⟨0, 1, "", 0, 0, 0, 0, 0⟩
        ⟨8000, 90, 1, 10000, some ⟨2025, 1⟩,
          [(⟨2025, 1⟩, ⟨[], 10000, 90, 8000, true, ""⟩)]⟩
        ⟨2, ⟨2025, 1⟩, some 5000, "B", "N", 0, "P"⟩ 5000).accumulated_months = 1) ∧
    (stepCore ⟨0, 1, "", 0, 0, 0, 0, 0⟩
      ⟨8000, 90, 1, 10000, some ⟨2025, 1⟩,
        [(⟨2025, 1⟩, ⟨[], 10000, 90, 8000, true, ""⟩)]⟩
      ⟨3, ⟨2025, 2⟩, some 7000, "B", "N", 0, "P"⟩ 7000).accumulated_months = 1 + 1 ∧
    (stepCore ⟨0, 1, "", 0, 0, 0, 0, 0⟩
      ⟨8000, 90, 1, 10000, some ⟨2025, 1⟩,
        [(⟨2025, 1⟩, ⟨[], 10000, 90, 8000, true, ""⟩)]⟩
      ⟨4, ⟨2025, 5⟩, some 7000, "B", "N", 0, "P"⟩ 7000).accumulated_months = 1 :=
  ⟨C4_replace_not_add.1 ⟨0, 1, "", 0, 0, 0, 0, 0⟩
      ⟨8000, 90, 1, 10000, some ⟨2025, 1⟩,
        [(⟨2025, 1⟩, ⟨[], 10000, 90, 8000, true, ""⟩)]⟩
      ⟨2, ⟨2025, 1⟩, some 5000, "B", "N", 0, "P"⟩ 5000
      ⟨[], 10000, 90, 8000, true, ""⟩ rfl rfl rfl (by norm_num),
    (C4_replace_not_add.2.1 ⟨0, 1, "", 0, 0, 0, 0, 0⟩
      ⟨8000, 90, 1, 10000, some ⟨2025, 1⟩,
        [(⟨2025, 1⟩, ⟨[], 10000, 90, 8000, true, ""⟩)]⟩
      ⟨3, ⟨2025, 2⟩, some 7000, "B", "N", 0, "P"⟩ 7000 rfl rfl).2.2,
    (C4_replace_not_add.2.2 ⟨0, 1, "", 0, 0, 0, 0, 0⟩
      ⟨8000, 90, 1, 10000, some ⟨2025, 1⟩,
        [(⟨2025, 1⟩, ⟨[], 10000, 90, 8000, true, ""⟩)]⟩
      ⟨4, ⟨2025, 5⟩, some 7000, "B", "N", 0, "P"⟩ 7000 rfl).2⟩

/-- C9: a record with `bill_amount` exactly 0 is not skipped (only NULL or
strictly negative amounts are), and the effective-tax-rate division by that
zero amount raises, is caught by the per-person handler, and makes
`calculate_tax` return the empty list for the whole person. -/
theorem C9_zero_amount_discards :
    ∀ (cred : String) (year : Nat) (records : List BillingRecord)
      (opts : TaxOptions) (r0 : BillingRecord),
      r0 ∈ records → r0.bill_amount = some 0 →
      calculate_tax cred year records opts = [] := by
  intro cred year records opts r0 hmem hz
  have hne : records ≠ [] := List.ne_nil_of_mem hmem
  have hmem' : r0 ∈ sortRecords records :=
    ((List.perm_insertionSort keyLE records).mem_iff).2 hmem
  unfold calculate_tax
  rw [if_neg (by simpa [List.isEmpty_iff] using hne),
    runRecords_error_of_zero (clampOpts opts) cred (sortRecords records)
      initState r0 hmem' hz]

/-- Witness for C9: a good January record followed by a zero-amount February
record yields no rows at all for the person. -/
theorem C9_zero_amount_discards_witness :
    calculate_tax "P" 2025
      [⟨1, ⟨2025, 1⟩, some 10000, "B", "N", 0, "P"⟩,
        ⟨2, ⟨2025, 2⟩, some 0, "B", "N", 0, "P"⟩] ⟨0, 1, "", 0, 0, 0, 0, 0⟩ = [] :=
  C9_zero_amount_discards "P" 2025 _ _ ⟨2, ⟨2025, 2⟩, some 0, "B", "N", 0, "P"⟩
    (by simp) rfl

/-- C10: on every emitted result row `accumulated_tax` equals
`prev_accumulated_tax + tax` exactly and `tax` is non-negative (part 1);
between two consecutively emitted rows with no reset firing at the second
record, the second row's `prev_accumulated_tax` equals the first row's
`accumulated_tax`, so the `accumulated_tax` field never decreases (part 2). -/
theorem C10_accumulated_tax_monotone :
    (∀ (cred : String) (year : Nat) (records : List BillingRecord)
      (opts : TaxOptions) (row : ResultRow),
      row ∈ calculate_tax cred year records opts →
      row.accumulated_tax = row.prev_accumulated_tax + row.tax ∧ 0 ≤ row.tax) ∧
    (∀ (opts : TaxOptions) (cred : String) (st st' st'' : RunState)
      (r r2 : BillingRecord) (row row2 : ResultRow),
      twoDp st.accumulated_tax →
      step opts cred st r = .ok (st', some row) →
      step opts cred st' r2 = .ok (st'', some row2) →
      (detectReset st'.last_income_month r2.year_month).1 = false →
      row2.prev_accumulated_tax = row.accumulated_tax ∧
      row.accumulated_tax ≤ row2.accumulated_tax) := by
  constructor
  · intro cred year records opts row hmem
    unfold calculate_tax at hmem
    split_ifs at hmem with he
    · simp at hmem
    · rcases hrun : runRecords (clampOpts opts) cred initState (sortRecords records)
        with e | ⟨stF, rows⟩ <;> rw [hrun] at hmem
      · simp at hmem
      · dsimp only at hmem
        exact (runRecords_rows_inv (clampOpts opts) cred (sortRecords records)
          initState stF rows twoDp_zero hrun).2 row hmem
  · intro opts cred st st' st'' r r2 row row2 h2 hs1 hs2 hnr
    obtain ⟨amt, _, hst', hrow⟩ := step_ok_some_inv hs1
    obtain ⟨amt2, _, hst'', hrow2⟩ := step_ok_some_inv hs2
    have hprev : twoDp (stepCore opts st r amt).prev_total_paid_tax :=
      stepCore_prev_twoDp h2 opts r amt
    have hcur : twoDp (stepCore opts st r amt).current_tax :=
      stepCore_current_tax_twoDp opts st r amt
    have hacc : twoDp (stepCore opts st r amt).accumulated_tax := by
      rw [(stepCore_tax_defs opts st r amt).2.2.2.1]
      exact twoDp_add hprev hcur
    have hstacc : st'.accumulated_tax = (stepCore opts st r amt).accumulated_tax := by
      rw [hst', stepState_accumulated_tax]
    have hrowacc : row.accumulated_tax = st'.accumulated_tax := by
      rw [hrow, (mkRow_tax_fields opts cred r amt (stepCore opts st r amt)).2.2,
        round2he_eq_self hacc, hstacc]
    have hprev2 : (stepCore opts st' r2 amt2).prev_total_paid_tax =
        st'.accumulated_tax := by
      rw [(stepCore_tax_defs opts st' r2 amt2).2.2.2.2, if_neg (by simp [hnr])]
    have h2' : twoDp st'.accumulated_tax := by
      rw [hstacc]
      exact hacc
    constructor
    · rw [hrow2, (mkRow_tax_fields opts cred r2 amt2 (stepCore opts st' r2 amt2)).2.1,
        hprev2, round2he_eq_self h2', hrowacc]
    · have hacc2 : row2.accumulated_tax =
          st'.accumulated_tax + (stepCore opts st' r2 amt2).current_tax := by
        rw [hrow2, (mkRow_tax_fields opts cred r2 amt2 (stepCore opts st' r2 amt2)).2.2,
          round2he_eq_self (by
            rw [(stepCore_tax_defs opts st' r2 amt2).2.2.2.1, hprev2]
            exact twoDp_add h2' (stepCore_current_tax_twoDp opts st' r2 amt2)),
          (stepCore_tax_defs opts st' r2 amt2).2.2.2.1, hprev2]
      rw [hrowacc, hacc2]
      have := stepCore_current_tax_nonneg opts st' r2 amt2
      linarith

/-- Witness for C10: the first row of the single-record January run has
`accumulated_tax = prev_accumulated_tax + tax` and a non-negative tax. -/
theorem C10_accumulated_tax_monotone_witness :
    ((calculate_tax "ID1" 2025 [⟨1, ⟨2025, 1⟩, some 10000, "B1", "N", 7, "ID1"⟩]
        ⟨7, 1, "N", 0, 0, 0, 0, 0⟩).headD
      ⟨"", "", "", 0, ⟨0, 0⟩, 0, 0, 0, "", 0, 0, 0, 0, 0, 0, 0, 0, 0, 0, 0, 0, 0,
        0, 0, 0, [], 0, 0⟩).accumulated_tax =
      ((calculate_tax "ID1" 2025 [⟨1, ⟨2025, 1⟩, some 10000, "B1", "N", 7, "ID1"⟩]
          ⟨7, 1, "N", 0, 0, 0, 0, 0⟩).headD
        ⟨"", "", "", 0, ⟨0, 0⟩, 0, 0, 0, "", 0, 0, 0, 0, 0, 0, 0, 0, 0, 0, 0, 0, 0,
          0, 0, 0, [], 0, 0⟩).prev_accumulated_tax +
        ((calculate_tax "ID1" 2025 [⟨1, ⟨2025, 1⟩, some 10000, "B1", "N", 7, "ID1"⟩]
            ⟨7, 1, "N", 0, 0, 0, 0, 0⟩).headD
          ⟨"", "", "", 0, ⟨0, 0⟩, 0, 0, 0, "", 0, 0, 0, 0, 0, 0, 0, 0, 0, 0, 0, 0, 0,
            0, 0, 0, [], 0, 0⟩).tax :=
  (C10_accumulated_tax_monotone.1 "ID1" 2025
    [⟨1, ⟨2025, 1⟩, some 10000, "B1", "N", 7, "ID1"⟩] ⟨7, 1, "N", 0, 0, 0, 0, 0⟩ _
    (by
      norm_num [calculate_tax, sortRecords, List.insertionSort, runRecords, step,
        stepState, stepCore, mkRow, clampOpts, initState, lookupM, setM,
        detectReset, freshAccum, get_tax_rate_and_deduction, round2he, round2hu,
        round4he, roundHEint, roundHUint, List.headD])).1

/-- C7: a record whose `bill_amount` is NULL or strictly negative is skipped
without being fatal: `calculate_tax` on a list containing such a record
returns exactly what it returns on the same list with that record removed. -/
theorem C7_invalid_record_skipped :
    ∀ (cred : String) (year : Nat) (opts : TaxOptions)
      (l1 l2 : List BillingRecord) (bad : BillingRecord),
      (bad.bill_amount = none ∨ ∃ a, bad.bill_amount = some a ∧ a < 0) →
      calculate_tax cred year (l1 ++ bad :: l2) opts =
        calculate_tax cred year (l1 ++ l2) opts := by
  intro cred year opts l1 l2 bad hbad
  have hv : validB bad = false := by
    rcases hbad with h | ⟨a, ha, ha2⟩
    · simp [validB, h]
    · simp [validB, ha, ha2]
  have key : ∀ m : List BillingRecord,
      runRecords (clampOpts opts) cred initState (sortRecords m) =
        runRecords (clampOpts opts) cred initState (sortRecords (m.filter validB)) := by
    intro m
    rw [runRecords_filter, sortRecords, filter_insertionSort keyLE validB m]
    rfl
  have hfeq : (l1 ++ bad :: l2).filter validB = (l1 ++ l2).filter validB := by
    simp [List.filter_append, List.filter_cons, hv]
  have hrun : runRecords (clampOpts opts) cred initState
        (sortRecords (l1 ++ bad :: l2)) =
      runRecords (clampOpts opts) cred initState (sortRecords (l1 ++ l2)) := by
    rw [key (l1 ++ bad :: l2), key (l1 ++ l2), hfeq]
  unfold calculate_tax
  rw [if_neg (by simp)]
  by_cases he : l1 ++ l2 = []
  · rcases List.append_eq_nil.1 he with ⟨rfl, rfl⟩
    rw [if_pos (by simp), hrun]
    simp [sortRecords, List.insertionSort, runRecords]
  · rw [if_neg (by simpa using he), hrun]

/-- Witness for C7: inserting a NULL-amount record between two valid records
leaves the output of `calculate_tax` unchanged. -/
theorem C7_invalid_record_skipped_witness :
    calculate_tax "P" 2025
      [⟨1, ⟨2025, 1⟩, some 10000, "B", "N", 0, "P"⟩,
        ⟨2, ⟨2025, 1⟩, none, "B", "N", 0, "P"⟩,
        ⟨3, ⟨2025, 2⟩, some 5000, "B", "N", 0, "P"⟩] ⟨0, 1, "", 0, 0, 0, 0, 0⟩ =
      calculate_tax "P" 2025
        [⟨1, ⟨2025, 1⟩, some 10000, "B", "N", 0, "P"⟩,
          ⟨3, ⟨2025, 2⟩, some 5000, "B", "N", 0, "P"⟩] ⟨0, 1, "", 0, 0, 0, 0, 0⟩ :=
  C7_invalid_record_skipped "P" 2025 ⟨0, 1, "", 0, 0, 0, 0, 0⟩
    [⟨1, ⟨2025, 1⟩, some 10000, "B", "N", 0, "P"⟩]
    [⟨3, ⟨2025, 2⟩, some 5000, "B", "N", 0, "P"⟩]
    ⟨2, ⟨2025, 1⟩, none, "B", "N", 0, "P"⟩ (Or.inl rfl)

/-- C5: calling `calcTaxByBatch` with a batch number returns exactly the
post-calculation filter (on `batch_no`) of the per-person full-year results,
where each person's `calculate_tax` run receives ALL of that person's records
for the year regardless of their batch (part 1); hence every returned row
carries the requested batch number (part 2); and concretely, a person with a
January record in batch "BA" and a February record in batch "BB" queried for
batch "BB" gets one row whose accumulated totals include the "BA" record
(accumulated_income 16000 over 2 months with prev_accumulated_income 8000)
(part 3). -/
theorem C5_batch_filter :
    (∀ (gp : String → Option String → Option String → List Person)
      (grp : List String → Nat → List BillingRecord)
      (gr : String → Nat → String → List BillingRecord)
      (mock : String) (year : Nat) (b : String) (cn rn : Option String)
      (opts : TaxOptions), b ≠ "" → gp b cn rn ≠ [] →
      calcTaxByBatch gp grp gr mock year (some b) cn rn false opts =
        Except.ok ((batchAllResults year (gp b cn rn)
          (grp ((gp b cn rn).map (fun p => p.credential_num)) year) opts).filter
            (fun res => res.batch_no == b))) ∧
    (∀ (gp : String → Option String → Option String → List Person)
      (grp : List String → Nat → List BillingRecord)
      (gr : String → Nat → String → List BillingRecord)
      (mock : String) (year : Nat) (b : String) (cn rn : Option String)
      (opts : TaxOptions) (rows : List ResultRow) (row : ResultRow), b ≠ "" →
      calcTaxByBatch gp grp gr mock year (some b) cn rn false opts =
        Except.ok rows →
      row ∈ rows → row.batch_no = b) ∧
    ((Except.map (fun rows => rows.map (fun row : ResultRow =>
        (row.batch_no, row.accumulated_income, row.accumulated_months,
          row.prev_accumulated_income)))
      (calcTaxByBatch (fun b _ _ => if b == "BB" then [⟨"ID1", "N", 7⟩] else [])
        (fun _ _ => [⟨1, ⟨2025, 1⟩, some 10000, "BA", "N", 7, "ID1"⟩,
          ⟨2, ⟨2025, 2⟩, some 10000, "BB", "N", 7, "ID1"⟩])
        (fun _ _ _ => []) "M" 2025 (some "BB") none none false
        ⟨0, 1, "", 0, 0, 0, 0, 0⟩)) =
      Except.ok [("BB", 16000, 2, 8000)]) := by
  have main : ∀ (gp : String → Option String → Option String → List Person)
      (grp : List String → Nat → List BillingRecord)
      (gr : String → Nat → String → List BillingRecord)
      (mock : String) (year : Nat) (b : String) (cn rn : Option String)
      (opts : TaxOptions), b ≠ "" → gp b cn rn ≠ [] →
      calcTaxByBatch gp grp gr mock year (some b) cn rn false opts =
        Except.ok ((batchAllResults year (gp b cn rn)
          (grp ((gp b cn rn).map (fun p => p.credential_num)) year) opts).filter
            (fun res => res.batch_no == b)) := by
    intro gp grp gr mock year b cn rn opts hb hne
    simp only [calcTaxByBatch, Bool.false_eq_true, if_false, Option.getD_some]
    rw [if_pos (by simp [strTruthy, hb]),
      if_neg (by simpa [List.isEmpty_iff] using hne)]
  refine ⟨main, ?_, ?_⟩
  · intro gp grp gr mock year b cn rn opts rows row hb hcall hmem
    by_cases hne : gp b cn rn = []
    · simp only [calcTaxByBatch, Bool.false_eq_true, if_false, Option.getD_some] at hcall
      rw [if_pos (by simp [strTruthy, hb]), if_pos (by simp [hne])] at hcall
      obtain rfl := (Except.ok.inj hcall).symm
      simp at hmem
    · rw [main gp grp gr mock year b cn rn opts hb hne] at hcall
      obtain rfl := (Except.ok.inj hcall).symm
      exact eq_of_beq (List.mem_filter.1 hmem).2
  · have hb : (("BB" : String) = "") = False := by simp
    have hf : (("BA" : String) == "BB") = false := by simp
    have ht : (("BB" : String) == "BB") = true := by simp
    norm_num [calcTaxByBatch, batchAllResults, strTruthy, credGiven, orElseStr,
      calculate_tax, sortRecords, List.insertionSort, List.orderedInsert,
      runRecords, step, stepState, stepCore, mkRow, clampOpts, initState, lookupM,
      setM, detectReset, freshAccum, get_tax_rate_and_deduction, round2he,
      round2hu, round4he, roundHEint, roundHUint, keyLE, fmtYM, List.filter,
      Except.map, hb, hf, ht]

/-- Witness for C5: a one-person provider pair makes the batch call return
the batch-filtered full-year results. -/
theorem C5_batch_filter_witness :
    calcTaxByBatch (fun _ _ _ => [⟨"ID1", "N", 0⟩]) (fun _ _ => [])
      (fun _ _ _ => []) "M" 2025 (some "B7") none none false
      ⟨0, 1, "", 0, 0, 0, 0, 0⟩ =
      Except.ok ((batchAllResults 2025 [⟨"ID1", "N", 0⟩] []
        ⟨0, 1, "", 0, 0, 0, 0, 0⟩).filter (fun res => res.batch_no == "B7")) :=
  C5_batch_filter.1 (fun _ _ _ => [⟨"ID1", "N", 0⟩]) (fun _ _ => [])
    (fun _ _ _ => []) "M" 2025 "B7" none none ⟨0, 1, "", 0, 0, 0, 0, 0⟩
    (by simp) (by simp)

/-- C6 counterexample: called with no batch number and no credential number
(non-mock), `calculate_tax_by_batch` does NOT raise: it returns the value
`[]` (modelled as `Except.ok []`), contradicting the claim that the call
fails with an `InvalidArgument` error rather than returning a value. -/
theorem C6_no_raise_counterexample :
    calcTaxByBatch (fun _ _ _ => []) (fun _ _ => []) (fun _ _ _ => []) "M" 2025
      none none none false ⟨0, 1, "", 0, 0, 0, 0, 0⟩ = Except.ok [] := by
  norm_num [calcTaxByBatch, strTruthy, credGiven]

/-- C6 amended: with neither a batch number nor a non-blank credential number
(non-mock path) `calculate_tax_by_batch` logs the missing-argument error and
returns an empty list — no exception reaches the caller — which is the same
observable outcome as a valid call that finds zero people to process. -/
theorem C6_amended_returns_empty :
    (∀ (gp : String → Option String → Option String → List Person)
      (grp : List String → Nat → List BillingRecord)
      (gr : String → Nat → String → List BillingRecord)
      (mock : String) (year : Nat) (cn rn : Option String) (opts : TaxOptions),
      credGiven cn = false →
      calcTaxByBatch gp grp gr mock year none cn rn false opts = Except.ok []) ∧
    (∀ (gp : String → Option String → Option String → List Person)
      (grp : List String → Nat → List BillingRecord)
      (gr : String → Nat → String → List BillingRecord)
      (mock : String) (year : Nat) (b : String) (cn rn : Option String)
      (opts : TaxOptions), b ≠ "" → gp b cn rn = [] →
      calcTaxByBatch gp grp gr mock year (some b) cn rn false opts =
        Except.ok []) := by
  constructor
  · intro gp grp gr mock year cn rn opts hcg
    simp [calcTaxByBatch, strTruthy, hcg]
  · intro gp grp gr mock year b cn rn opts hb hemp
    simp only [calcTaxByBatch, Bool.false_eq_true, if_false, Option.getD_some]
    rw [if_pos (by simp [strTruthy, hb])]
    simp [hemp]

/-- Witness for C6's amended statement: a blank credential and a zero-people
batch both return `Except.ok []`. -/
theorem C6_amended_returns_empty_witness :
    calcTaxByBatch (fun _ _ _ => []) (fun _ _ => []) (fun _ _ _ => []) "M" 2026
      none (some "") none false ⟨0, 1, "", 0, 0, 0, 0, 0⟩ = Except.ok [] ∧
    calcTaxByBatch (fun _ _ _ => []) (fun _ _ => []) (fun _ _ _ => []) "M" 2026
      (some "B9") none none false ⟨0, 1, "", 0, 0, 0, 0, 0⟩ = Except.ok [] :=
  ⟨C6_amended_returns_empty.1 (fun _ _ _ => []) (fun _ _ => []) (fun _ _ _ => [])
      "M" 2026 (some "") none ⟨0, 1, "", 0, 0, 0, 0, 0⟩ rfl,
    C6_amended_returns_empty.2 (fun _ _ _ => []) (fun _ _ => []) (fun _ _ _ => [])
      "M" 2026 "B9" none none ⟨0, 1, "", 0, 0, 0, 0, 0⟩ (by simp) rfl⟩
